import Mathlib

/-!
Verification development for the tiny-yamux session engine.

The C sources are shallowly embedded: machine integers become Nat with
explicit reductions modulo 2^8 / 2^32 / 2^64 where C overflow or implicit
conversions matter, byte buffers become List Nat (each element a byte value),
and the caller-supplied transport callbacks become an explicit record holding
the bytes still readable (inflow) and the sequence of write calls already
issued (outflow).  Fallible C functions return their yamux_result_t
explicitly, paired with the updated state.

Naming follows the C sources (yamux_encode_header, yamux_stream_write, ...).
The C error code YAMUX_ERR_IO is rendered here as YAMUX_ERR_IOFAIL.
-/

/-- Result codes of include/yamux.h (yamux_result_t).  YAMUX_ERR_IOFAIL is
the code the C sources call the transport input-output error. -/
inductive yamux_result where
  | YAMUX_OK
  | YAMUX_ERR_INVALID
  | YAMUX_ERR_NOMEM
  | YAMUX_ERR_IOFAIL
  | YAMUX_ERR_CLOSED
  | YAMUX_ERR_TIMEOUT
  | YAMUX_ERR_PROTOCOL
  | YAMUX_ERR_INTERNAL
  | YAMUX_ERR_INVALID_STREAM
  | YAMUX_ERR_WOULD_BLOCK
deriving Repr, DecidableEq

export yamux_result (YAMUX_OK YAMUX_ERR_INVALID YAMUX_ERR_NOMEM YAMUX_ERR_IOFAIL
  YAMUX_ERR_CLOSED YAMUX_ERR_TIMEOUT YAMUX_ERR_PROTOCOL YAMUX_ERR_INTERNAL
  YAMUX_ERR_INVALID_STREAM YAMUX_ERR_WOULD_BLOCK)

/-- Stream states of include/yamux.h (yamux_stream_state_t). -/
inductive yamux_stream_state where
  | YAMUX_STREAM_IDLE
  | YAMUX_STREAM_SYN_SENT
  | YAMUX_STREAM_SYN_RECV
  | YAMUX_STREAM_ESTABLISHED
  | YAMUX_STREAM_FIN_SENT
  | YAMUX_STREAM_FIN_RECV
  | YAMUX_STREAM_CLOSED
deriving Repr, DecidableEq

export yamux_stream_state (YAMUX_STREAM_IDLE YAMUX_STREAM_SYN_SENT
  YAMUX_STREAM_SYN_RECV YAMUX_STREAM_ESTABLISHED YAMUX_STREAM_FIN_SENT
  YAMUX_STREAM_FIN_RECV YAMUX_STREAM_CLOSED)

/-- Protocol constants from src/yamux_defs.h. -/
def YAMUX_PROTO_VERSION : Nat := 0

def YAMUX_DATA : Nat := 0x0

def YAMUX_WINDOW_UPDATE : Nat := 0x1

def YAMUX_PING : Nat := 0x2

def YAMUX_GO_AWAY : Nat := 0x3

def YAMUX_FLAG_SYN : Nat := 0x1

def YAMUX_FLAG_ACK : Nat := 0x2

def YAMUX_FLAG_FIN : Nat := 0x4

def YAMUX_FLAG_RST : Nat := 0x8

def YAMUX_HEADER_SIZE : Nat := 12

def YAMUX_DEFAULT_WINDOW_SIZE : Nat := 256 * 1024

def YAMUX_WINDOW_UPDATE_THRESHOLD : Nat := YAMUX_DEFAULT_WINDOW_SIZE / 2

def YAMUX_MAX_DATA_FRAME_SIZE : Nat := 16384

/-- Frame header (yamux_header_t of include/yamux.h).  The C fields are
uint8 / uint8 / uint16 / uint32 / uint32; here each is a Nat and validity
theorems carry the corresponding range hypotheses. -/
structure yamux_header where
  version : Nat
  type : Nat
  flags : Nat
  stream_id : Nat
  length : Nat
deriving Repr, DecidableEq

/-- yamux_encode_header of src/yamux_frame.c (lines 21-50): serializes the
header big-endian into 12 bytes.  The C expression (x >> k) & 0xFF is
written with Nat shiftRight and land, which agree with the C uint
semantics for the values in range. -/
def yamux_encode_header (h : yamux_header) : List Nat :=
  [h.version,
   h.type,
   (h.flags >>> 8) &&& 0xFF,
   h.flags &&& 0xFF,
   (h.stream_id >>> 24) &&& 0xFF,
   (h.stream_id >>> 16) &&& 0xFF,
   (h.stream_id >>> 8) &&& 0xFF,
   h.stream_id &&& 0xFF,
   (h.length >>> 24) &&& 0xFF,
   (h.length >>> 16) &&& 0xFF,
   (h.length >>> 8) &&& 0xFF,
   h.length &&& 0xFF]

/-- yamux_decode_header of src/yamux_frame.c (lines 60-97).  The C checks
buffer_len < 8 (its comment: the actual header is 8 bytes, not 12) and then
reads bytes 0..11 of the supplied memory; reads are modeled with getD.
Returns the result code and, on success, the decoded header. -/
def yamux_decode_header (buffer : List Nat) (buffer_len : Nat) :
    yamux_result × Option yamux_header :=
  if buffer_len < 8 then (YAMUX_ERR_INVALID, none)
  else if buffer.getD 0 0 ≠ YAMUX_PROTO_VERSION then (YAMUX_ERR_PROTOCOL, none)
  else if YAMUX_GO_AWAY < buffer.getD 1 0 then (YAMUX_ERR_PROTOCOL, none)
  else
    (YAMUX_OK, some
      { version := buffer.getD 0 0
        type := buffer.getD 1 0
        flags := (buffer.getD 2 0) <<< 8 ||| buffer.getD 3 0
        stream_id := (buffer.getD 4 0) <<< 24 ||| (buffer.getD 5 0) <<< 16 |||
          (buffer.getD 6 0) <<< 8 ||| buffer.getD 7 0
        length := (buffer.getD 8 0) <<< 24 ||| (buffer.getD 9 0) <<< 16 |||
          (buffer.getD 10 0) <<< 8 ||| buffer.getD 11 0 })

theorem lor_mul_pow_eq_add (i a b : Nat) (hb : b < 2 ^ i) :
    a * 2 ^ i ||| b = a * 2 ^ i + b := by
  rw [Nat.mul_comm a (2 ^ i)]
  exact (Nat.mul_add_lt_is_or hb a).symm

theorem be32_recompose (x : Nat) (hx : x < 2 ^ 32) :
    ((x >>> 24 &&& 0xFF) <<< 24 ||| (x >>> 16 &&& 0xFF) <<< 16 |||
      (x >>> 8 &&& 0xFF) <<< 8 ||| (x &&& 0xFF)) = x := by
  have hmask : (0xFF : Nat) = 2 ^ 8 - 1 := by norm_num
  rw [hmask]
  simp only [Nat.and_pow_two_sub_one_eq_mod, Nat.shiftRight_eq_div_pow,
    Nat.shiftLeft_eq]
  rw [lor_mul_pow_eq_add 24 _ _ (by omega)]
  rw [show x / 2 ^ 24 % 2 ^ 8 * 2 ^ 24 + x / 2 ^ 16 % 2 ^ 8 * 2 ^ 16 =
      (x / 2 ^ 24 % 2 ^ 8 * 2 ^ 8 + x / 2 ^ 16 % 2 ^ 8) * 2 ^ 16 by ring]
  rw [lor_mul_pow_eq_add 16 _ _ (by omega)]
  rw [show (x / 2 ^ 24 % 2 ^ 8 * 2 ^ 8 + x / 2 ^ 16 % 2 ^ 8) * 2 ^ 16 +
      x / 2 ^ 8 % 2 ^ 8 * 2 ^ 8 =
      ((x / 2 ^ 24 % 2 ^ 8 * 2 ^ 8 + x / 2 ^ 16 % 2 ^ 8) * 2 ^ 8 +
        x / 2 ^ 8 % 2 ^ 8) * 2 ^ 8 by ring]
  rw [lor_mul_pow_eq_add 8 _ _ (by omega)]
  omega

theorem be16_recompose (x : Nat) (hx : x < 2 ^ 16) :
    ((x >>> 8 &&& 0xFF) <<< 8 ||| (x &&& 0xFF)) = x := by
  have hmask : (0xFF : Nat) = 2 ^ 8 - 1 := by norm_num
  rw [hmask]
  simp only [Nat.and_pow_two_sub_one_eq_mod, Nat.shiftRight_eq_div_pow,
    Nat.shiftLeft_eq]
  rw [lor_mul_pow_eq_add 8 _ _ (by omega)]
  omega

/-- C2: codec round-trip.  For every valid header (version 0, type at most 3,
fields in their uint ranges), decoding the 12-byte encoding yields the
header back. -/
theorem yamux_header_roundtrip (h : yamux_header)
    (hv : h.version = 0) (ht : h.type ≤ 3)
    (hf : h.flags < 2 ^ 16) (hs : h.stream_id < 2 ^ 32) (hl : h.length < 2 ^ 32) :
    yamux_decode_header (yamux_encode_header h) 12 = (YAMUX_OK, some h) := by
  obtain ⟨v, t, f, s, l⟩ := h
  simp only at hv ht hf hs hl
  subst hv
  simp only [yamux_encode_header, yamux_decode_header, List.getD_cons_zero,
    List.getD_cons_succ, YAMUX_PROTO_VERSION, YAMUX_GO_AWAY]
  rw [if_neg (by omega), if_neg (by simp), if_neg (by omega)]
  simp only [Prod.mk.injEq, Option.some.injEq, yamux_header.mk.injEq]
  exact ⟨trivial, trivial, trivial, be16_recompose f hf, be32_recompose s hs,
    be32_recompose l hl⟩

/-- Witness for C2 at a concrete header. -/
theorem yamux_header_roundtrip_witness :
    yamux_decode_header (yamux_encode_header ⟨0, 1, 0x1234, 77, 4096⟩) 12 =
      (YAMUX_OK, some ⟨0, 1, 0x1234, 77, 4096⟩) :=
  yamux_header_roundtrip ⟨0, 1, 0x1234, 77, 4096⟩ rfl (by norm_num)
    (by norm_num) (by norm_num) (by norm_num)

/-- C3 (amended): yamux_decode_header rejects with YAMUX_ERR_INVALID exactly
when fewer than 8 bytes are available (the C source checks buffer_len < 8,
not < 12), rejects with YAMUX_ERR_PROTOCOL when the version byte is nonzero
or the type byte exceeds 3, and succeeds otherwise. -/
theorem yamux_decode_header_errors (buffer : List Nat) (buffer_len : Nat) :
    (buffer_len < 8 → yamux_decode_header buffer buffer_len =
      (YAMUX_ERR_INVALID, none)) ∧
    (8 ≤ buffer_len → buffer.getD 0 0 ≠ 0 → yamux_decode_header buffer buffer_len =
      (YAMUX_ERR_PROTOCOL, none)) ∧
    (8 ≤ buffer_len → buffer.getD 0 0 = 0 → 3 < buffer.getD 1 0 →
      yamux_decode_header buffer buffer_len = (YAMUX_ERR_PROTOCOL, none)) ∧
    (8 ≤ buffer_len → buffer.getD 0 0 = 0 → buffer.getD 1 0 ≤ 3 →
      (yamux_decode_header buffer buffer_len).1 = YAMUX_OK) := by
  refine ⟨fun hlt => ?_, fun hge hv => ?_, fun hge hv ht => ?_, fun hge hv ht => ?_⟩
  · unfold yamux_decode_header
    rw [if_pos hlt]
  · unfold yamux_decode_header
    rw [if_neg (by omega), if_pos (by simpa [YAMUX_PROTO_VERSION] using hv)]
  · unfold yamux_decode_header
    rw [if_neg (by omega),
      if_neg (by simp only [List.getD_eq_getElem?_getD] at hv; simp [YAMUX_PROTO_VERSION, hv]),
      if_pos (by simpa [YAMUX_GO_AWAY] using ht)]
  · unfold yamux_decode_header
    rw [if_neg (by omega),
      if_neg (by simp only [List.getD_eq_getElem?_getD] at hv; simp [YAMUX_PROTO_VERSION, hv]),
      if_neg (by simp only [List.getD_eq_getElem?_getD] at ht; simp [YAMUX_GO_AWAY]; omega)]

/-- Witness for C3 at concrete inputs (one per branch of the statement). -/
theorem yamux_decode_header_errors_witness :
    yamux_decode_header [0, 0, 0, 0] 4 = (YAMUX_ERR_INVALID, none) ∧
    yamux_decode_header [255, 0, 0, 0, 0, 0, 0, 0, 0, 0, 0, 0] 12 =
      (YAMUX_ERR_PROTOCOL, none) ∧
    yamux_decode_header [0, 9, 0, 0, 0, 0, 0, 0, 0, 0, 0, 0] 12 =
      (YAMUX_ERR_PROTOCOL, none) ∧
    (yamux_decode_header [0, 2, 0, 1, 0, 0, 0, 0, 0, 0, 0, 0] 12).1 = YAMUX_OK :=
  ⟨(yamux_decode_header_errors [0, 0, 0, 0] 4).1 (by norm_num),
   (yamux_decode_header_errors [255, 0, 0, 0, 0, 0, 0, 0, 0, 0, 0, 0] 12).2.1
     (by norm_num) (by decide),
   (yamux_decode_header_errors [0, 9, 0, 0, 0, 0, 0, 0, 0, 0, 0, 0] 12).2.2.1
     (by norm_num) (by decide) (by decide),
   (yamux_decode_header_errors [0, 2, 0, 1, 0, 0, 0, 0, 0, 0, 0, 0] 12).2.2.2
     (by norm_num) (by decide) (by decide)⟩

/-- C3 counterexample: a buffer of 8 bytes (fewer than 12) is not rejected
with YAMUX_ERR_INVALID; decoding succeeds, refuting the claimed 12-byte
minimum. -/
theorem yamux_decode_header_short_accepted :
    (yamux_decode_header [0, 0, 0, 0, 0, 0, 0, 0] 8).1 = YAMUX_OK ∧ 8 < 12 := by
  constructor
  · decide
  · norm_num

/-- Big-endian serialization of a 32-bit value into 4 bytes, as done by the
C sources both via htonl plus memcpy and via explicit shift-mask stores. -/
def be32_bytes (v : Nat) : List Nat :=
  [(v >>> 24) &&& 0xFF, (v >>> 16) &&& 0xFF, (v >>> 8) &&& 0xFF, v &&& 0xFF]

/-- Big-endian read of a 32-bit value from 4 bytes, as done by the C sources
via memcpy plus ntohl. -/
def be32_value (payload : List Nat) : Nat :=
  (payload.getD 0 0) <<< 24 ||| (payload.getD 1 0) <<< 16 |||
    (payload.getD 2 0) <<< 8 ||| payload.getD 3 0

/-- The caller-supplied transport of include/yamux.h (yamux_io_t): the read
callback is modeled by a queue of readable bytes (inflow), the write
callback by the list of write calls already issued (outflow, one byte list
per call).  write_fails models a transport whose write callback reports
failure (returns -1), as the mock transport of the tests can. -/
structure yamux_io_t where
  inflow : List Nat
  outflow : List (List Nat)
  write_fails : Bool
deriving Repr, DecidableEq

/-- One io.read(ctx, buf, len) call: delivers min(len, available) bytes, as
the in-memory mock transport of the tests does.  Returns the updated
transport and the bytes delivered (the C return value is their count). -/
def io_read (tr : yamux_io_t) (len : Nat) : yamux_io_t × List Nat :=
  ({ tr with inflow := tr.inflow.drop (min len tr.inflow.length) },
   tr.inflow.take (min len tr.inflow.length))

/-- One io.write(ctx, buf, len) call: appends the frame bytes to the outflow
and returns len, or returns an error count (modeled as none) when the
transport fails. -/
def io_write (tr : yamux_io_t) (bytes : List Nat) : yamux_io_t × Option Nat :=
  if tr.write_fails then (tr, none)
  else ({ tr with outflow := tr.outflow ++ [bytes] }, some bytes.length)

/-- Receive buffer of a stream (yamux_buffer_t of src/yamux_internal.h).
data holds the bytes written so far (the C used field equals data.length);
pos is the read cursor.  Capacity bookkeeping and allocation failure are
not modeled: reallocation always succeeds here. -/
structure yamux_buffer_t where
  data : List Nat
  pos : Nat
deriving Repr, DecidableEq

/-- yamux_buffer_read of src/yamux_buffer.c (lines 105-131): copies
min(len, used - pos) bytes from pos forward and advances pos; with an empty
buffer it reports 0 bytes.  The len = 0 and null-pointer YAMUX_ERR_INVALID
cases are handled by the callers modeled below. -/
def yamux_buffer_read (b : yamux_buffer_t) (len : Nat) : yamux_buffer_t × List Nat :=
  let available := b.data.length - b.pos
  if available = 0 then (b, [])
  else
    let n := min len available
    ({ b with pos := b.pos + n }, (b.data.drop b.pos).take n)

/-- yamux_buffer_write of src/yamux_buffer.c (lines 61-94): appends bytes,
growing as needed (growth always succeeds in this model). -/
def yamux_buffer_write (b : yamux_buffer_t) (bytes : List Nat) : yamux_buffer_t :=
  { b with data := b.data ++ bytes }

/-- yamux_buffer_compact of src/yamux_buffer.c (lines 139-160): discards the
bytes before pos and resets pos to 0. -/
def yamux_buffer_compact (b : yamux_buffer_t) : yamux_buffer_t :=
  { data := b.data.drop b.pos, pos := 0 }

/-- Stream state (struct yamux_stream of src/yamux_internal.h).  The parent
session pointer is passed explicitly where needed; the intrusive next
pointer of the accept queue is modeled in the session (queue of ids). -/
structure yamux_stream_t where
  id : Nat
  state : yamux_stream_state
  recvbuf : yamux_buffer_t
  send_window : Nat
  recv_window : Nat
deriving Repr, DecidableEq

/-- Session state (struct yamux_session of src/yamux_internal.h).  streams
is the stream table (the compacted pointer array, in slot order);
accept_queue holds the ids of the queued streams in order, head first (the
C links the stream objects themselves through their next pointers, so a
queue entry denotes the table stream with that id). -/
structure yamux_session_t where
  client : Bool
  go_away_received : Bool
  streams : List yamux_stream_t
  accept_queue : List Nat
  accept_backlog : Nat
  max_stream_window_size : Nat
deriving Repr, DecidableEq

/-- yamux_get_stream of src/yamux_stream_utils.c (lines 36-54): linear scan
of the table for the first stream with the given id. -/
def yamux_get_stream (session : yamux_session_t) (stream_id : Nat) :
    Option yamux_stream_t :=
  session.streams.find? (fun s => s.id = stream_id)

/-- In-place mutation of the table entry with the given id (the C writes
through the stream pointer; the table holds the same object). -/
def yamux_set_stream (session : yamux_session_t) (stream_id : Nat)
    (f : yamux_stream_t → yamux_stream_t) : yamux_session_t :=
  { session with
    streams := session.streams.map fun s => if s.id = stream_id then f s else s }

/-- yamux_remove_stream of src/yamux_stream_utils.c (lines 130-156): clears
the slot holding the given id (no duplicate ids arise, see
yamux_add_stream). -/
def yamux_remove_stream (session : yamux_session_t) (stream_id : Nat) :
    yamux_session_t :=
  { session with streams := session.streams.filter (fun s => s.id ≠ stream_id) }

/-- yamux_enqueue_stream_for_accept of src/yamux_stream_utils.c (lines
200-225): appends the stream at the tail of the accept queue.  The function
performs no backlog check and cannot fail for a live session and stream. -/
def yamux_enqueue_stream_for_accept (session : yamux_session_t)
    (stream_id : Nat) : yamux_result × yamux_session_t :=
  (YAMUX_OK, { session with accept_queue := session.accept_queue ++ [stream_id] })

/-- yamux_stream_accept of src/yamux_stream.c (lines 140-175): refuses after
GO_AWAY, reports YAMUX_ERR_TIMEOUT on an empty queue, otherwise removes the
head stream of the queue, marks it ESTABLISHED and returns it (by id). -/
def yamux_stream_accept (session : yamux_session_t) :
    yamux_result × Option Nat × yamux_session_t :=
  if session.go_away_received then (YAMUX_ERR_CLOSED, none, session)
  else
    match session.accept_queue with
    | [] => (YAMUX_ERR_TIMEOUT, none, session)
    | sid :: rest =>
        (YAMUX_OK, some sid,
          yamux_set_stream { session with accept_queue := rest } sid
            (fun s => { s with state := YAMUX_STREAM_ESTABLISHED }))

/-- The chunking loop of yamux_stream_write (src/yamux_stream.c lines
427-489).  Returns the result code, the total bytes written, the remaining
send_window and the transport.  The C re-reads stream->send_window (already
decremented by earlier chunks) and subtracts total_written from it in
size_t arithmetic, wrapping modulo 2^64 when total_written exceeds it. -/
def yamux_stream_write_loop (stream_id : Nat) (buf : List Nat)
    (len_to_write send_window total_written : Nat) (tr : yamux_io_t) :
    yamux_result × Nat × Nat × yamux_io_t :=
  if hlt : total_written < len_to_write then
    let chunk0 := min (len_to_write - total_written) YAMUX_MAX_DATA_FRAME_SIZE
    let wrem := (2 ^ 64 + send_window - total_written) % 2 ^ 64
    let chunk := if wrem < chunk0 ∧ wrem < YAMUX_MAX_DATA_FRAME_SIZE then wrem else chunk0
    if hch : chunk = 0 then (YAMUX_OK, total_written, send_window, tr)
    else
      match io_write tr (yamux_encode_header
          ⟨YAMUX_PROTO_VERSION, YAMUX_DATA, 0, stream_id, chunk⟩) with
      | (tr1, none) => (YAMUX_ERR_IOFAIL, total_written, send_window, tr1)
      | (tr1, some _) =>
          match io_write tr1 ((buf.drop total_written).take chunk) with
          | (tr2, none) => (YAMUX_ERR_IOFAIL, total_written, send_window, tr2)
          | (tr2, some _) =>
              yamux_stream_write_loop stream_id buf len_to_write
                (send_window - chunk) (total_written + chunk) tr2
  else (YAMUX_OK, total_written, send_window, tr)
termination_by len_to_write - total_written
decreasing_by
  unfold chunk chunk0 wrem at hch
  omega

/-- yamux_stream_write of src/yamux_stream.c (lines 361-494).  Returns the
result, the byte count reported through bytes_written_out, the updated
stream and the transport. -/
def yamux_stream_write (stream : yamux_stream_t) (tr : yamux_io_t)
    (buf : List Nat) (len : Nat) :
    yamux_result × Nat × yamux_stream_t × yamux_io_t :=
  if stream.state = YAMUX_STREAM_CLOSED ∨ stream.state = YAMUX_STREAM_FIN_SENT ∨
      stream.state = YAMUX_STREAM_FIN_RECV then
    (YAMUX_ERR_CLOSED, 0, stream, tr)
  else if len = 0 then (YAMUX_OK, 0, stream, tr)
  else if stream.send_window = 0 then (YAMUX_ERR_WOULD_BLOCK, 0, stream, tr)
  else
    let len_to_write := min len stream.send_window
    let r := yamux_stream_write_loop stream.id buf len_to_write
      stream.send_window 0 tr
    (r.1, r.2.1, { stream with send_window := r.2.2.1 }, r.2.2.2)

/-- yamux_stream_read of src/yamux_stream.c (lines 268-350).  Returns the
result, the bytes delivered to the caller, the updated stream and the
transport.  When bytes were read, a WINDOW_UPDATE frame is emitted (its
io.write result is ignored by the C source) carrying the computed
increment; note the increment is YAMUX_DEFAULT_WINDOW_SIZE - recv_window
(computed in uint32 arithmetic) unless that difference is zero, in which
case the byte count just read is used. -/
def yamux_stream_read (stream : yamux_stream_t) (tr : yamux_io_t) (len : Nat) :
    yamux_result × List Nat × yamux_stream_t × yamux_io_t :=
  if len = 0 then (YAMUX_ERR_INVALID, [], stream, tr)
  else if stream.state = YAMUX_STREAM_CLOSED then (YAMUX_ERR_CLOSED, [], stream, tr)
  else
    match yamux_buffer_read stream.recvbuf len with
    | (buf1, bytes) =>
        let n := bytes.length
        let wi0 := (2 ^ 32 + YAMUX_DEFAULT_WINDOW_SIZE - stream.recv_window) % 2 ^ 32
        let wi1 := if wi0 = 0 ∧ 0 < n then n
          else if wi0 < n ∧ stream.recv_window + n ≤ YAMUX_DEFAULT_WINDOW_SIZE then n
          else wi0
        let wi := if wi1 = 0 then n else wi1
        let tr1 := if 0 < n then
            (io_write tr (yamux_encode_header
              ⟨YAMUX_PROTO_VERSION, YAMUX_WINDOW_UPDATE, 0, stream.id, 4⟩ ++
              be32_bytes wi)).1
          else tr
        let buf2 := if 0 < buf1.pos ∧ buf1.pos = buf1.data.length then
            yamux_buffer_compact buf1
          else buf1
        (YAMUX_OK, bytes, { stream with recvbuf := buf2 }, tr1)

/-- yamux_stream_close of src/yamux_stream.c (lines 184-257).  On a stream
already CLOSED it returns YAMUX_OK immediately, touching nothing.
Otherwise it emits a DATA-typed frame with the RST or FIN flag (the
io.write result is deliberately ignored), marks the stream CLOSED, removes
it from the session table and releases the receive buffer. -/
def yamux_stream_close (stream : yamux_stream_t) (tr : yamux_io_t) (reset : Bool)
    (session : yamux_session_t) :
    yamux_result × yamux_stream_t × yamux_io_t × yamux_session_t :=
  if stream.state = YAMUX_STREAM_CLOSED then (YAMUX_OK, stream, tr, session)
  else
    let flags := if reset then YAMUX_FLAG_RST else YAMUX_FLAG_FIN
    let tr1 := (io_write tr (yamux_encode_header
      ⟨YAMUX_PROTO_VERSION, YAMUX_DATA, flags, stream.id, 0⟩)).1
    (YAMUX_OK,
     { stream with state := YAMUX_STREAM_CLOSED, recvbuf := ⟨[], 0⟩ },
     tr1, yamux_remove_stream session stream.id)

/-- yamux_session_ping of src/yamux_session.c (lines 240-273).  The C
declares uint8_t frame[8]; yamux_encode_header overruns that stack array
with its 12-byte store, and io.write is called with sizeof(frame) = 8, so
only the first 8 bytes of the encoded PING header reach the transport (the
4-byte length field is never sent). -/
def yamux_session_ping (go_away_received : Bool) (tr : yamux_io_t) :
    yamux_result × yamux_io_t :=
  if go_away_received then (YAMUX_ERR_CLOSED, tr)
  else
    match io_write tr ((yamux_encode_header
        ⟨YAMUX_PROTO_VERSION, YAMUX_PING, YAMUX_FLAG_SYN, 0, 0⟩).take 8) with
    | (tr1, none) => (YAMUX_ERR_IOFAIL, tr1)
    | (tr1, some n) => if n ≠ 8 then (YAMUX_ERR_IOFAIL, tr1) else (YAMUX_OK, tr1)

/-- yamux_handle_data of src/yamux_handlers.c (lines 20-121).  Looks up the
stream, refuses on CLOSED or FIN_RECV, applies the FIN flag transition,
then (when length > 0) reads the payload, appends it to the receive buffer,
decrements recv_window (uint32 arithmetic) and, below the half-window
threshold, emits a window update and restores recv_window to the default.
The C stores that update in uint8_t frame[12]: yamux_encode_header fills
all 12 bytes and then frame[8..11] is overwritten with the window value, so
the frame on the wire is the first 8 header bytes followed by the value
(the length field is overwritten). -/
def yamux_handle_data (session : yamux_session_t) (tr : yamux_io_t)
    (h : yamux_header) : yamux_result × yamux_session_t × yamux_io_t :=
  match yamux_get_stream session h.stream_id with
  | none => (YAMUX_ERR_INVALID_STREAM, session, tr)
  | some s0 =>
      if s0.state = YAMUX_STREAM_CLOSED ∨ s0.state = YAMUX_STREAM_FIN_RECV then
        (YAMUX_ERR_CLOSED, session, tr)
      else
        let s1 := if h.flags &&& YAMUX_FLAG_FIN ≠ 0 then
            if s0.state = YAMUX_STREAM_ESTABLISHED then
              { s0 with state := YAMUX_STREAM_FIN_RECV }
            else if s0.state = YAMUX_STREAM_FIN_SENT then
              { s0 with state := YAMUX_STREAM_CLOSED }
            else s0
          else s0
        let session1 := yamux_set_stream session h.stream_id fun _ => s1
        if h.length = 0 then (YAMUX_OK, session1, tr)
        else
          match io_read tr h.length with
          | (tr1, bytes) =>
              if bytes.length < h.length then (YAMUX_ERR_IOFAIL, session1, tr1)
              else
                let s2 := { s1 with
                  recvbuf := yamux_buffer_write s1.recvbuf bytes,
                  recv_window := (2 ^ 32 + s1.recv_window - bytes.length) % 2 ^ 32 }
                let session2 := yamux_set_stream session1 h.stream_id fun _ => s2
                if s2.recv_window < YAMUX_WINDOW_UPDATE_THRESHOLD then
                  match io_write tr1 ((yamux_encode_header
                      ⟨YAMUX_PROTO_VERSION, YAMUX_WINDOW_UPDATE, 0, s2.id, 4⟩).take 8 ++
                      be32_bytes YAMUX_DEFAULT_WINDOW_SIZE) with
                  | (tr2, none) => (YAMUX_ERR_IOFAIL, session2, tr2)
                  | (tr2, some _) =>
                      (YAMUX_OK,
                       yamux_set_stream session2 h.stream_id
                         (fun s => { s with recv_window := YAMUX_DEFAULT_WINDOW_SIZE }),
                       tr2)
                else (YAMUX_OK, session2, tr1)

/-- The RST branch closing yamux_handle_window_update (src/yamux_handlers.c
lines 289-303): marks the stream CLOSED and removes it from the table. -/
def yamux_handle_window_update_rst (session : yamux_session_t) (tr : yamux_io_t)
    (h : yamux_header) : yamux_result × yamux_session_t × yamux_io_t :=
  if h.flags &&& YAMUX_FLAG_RST ≠ 0 then
    match yamux_get_stream session h.stream_id with
    | some _ =>
        (YAMUX_OK,
         yamux_remove_stream
           (yamux_set_stream session h.stream_id
             (fun t => { t with state := YAMUX_STREAM_CLOSED }))
           h.stream_id,
         tr)
    | none => (YAMUX_OK, session, tr)
  else (YAMUX_OK, session, tr)

/-- The branches of yamux_handle_window_update (src/yamux_handlers.c lines
222-303) that follow the SYN-create branch: ACK handling, the plain credit
grant, the standalone FIN reply and the RST teardown, in source order. -/
def yamux_handle_window_update_rest (session : yamux_session_t) (tr : yamux_io_t)
    (h : yamux_header) (value : Nat) : yamux_result × yamux_session_t × yamux_io_t :=
  let session_a :=
    if h.flags &&& YAMUX_FLAG_ACK ≠ 0 then
      match yamux_get_stream session h.stream_id with
      | some s =>
          if session.client = true ∧ s.state = YAMUX_STREAM_SYN_SENT ∧
              h.flags &&& YAMUX_FLAG_SYN ≠ 0 then
            yamux_set_stream session h.stream_id
              (fun t =>
                { t with send_window := value, state := YAMUX_STREAM_ESTABLISHED })
          else if s.state = YAMUX_STREAM_FIN_SENT ∧
              h.flags &&& YAMUX_FLAG_FIN ≠ 0 then
            yamux_set_stream session h.stream_id
              (fun t => { t with state := YAMUX_STREAM_CLOSED })
          else session
      | none => session
    else session
  let session_b :=
    if h.flags &&& YAMUX_FLAG_SYN = 0 ∧ h.flags &&& YAMUX_FLAG_ACK = 0 then
      match yamux_get_stream session_a h.stream_id with
      | some _ =>
          yamux_set_stream session_a h.stream_id
            (fun t => { t with send_window := (t.send_window + value) % 2 ^ 32 })
      | none => session_a
    else session_a
  if h.flags &&& YAMUX_FLAG_FIN ≠ 0 ∧ h.flags &&& YAMUX_FLAG_ACK = 0 ∧
      h.flags &&& YAMUX_FLAG_SYN = 0 then
    match yamux_get_stream session_b h.stream_id with
    | some _ =>
        let session_c := yamux_set_stream session_b h.stream_id
          (fun t => { t with state := YAMUX_STREAM_FIN_RECV })
        match io_write tr (yamux_encode_header
            ⟨YAMUX_PROTO_VERSION, YAMUX_WINDOW_UPDATE,
             YAMUX_FLAG_FIN ||| YAMUX_FLAG_ACK, h.stream_id, 0⟩) with
        | (tr2, none) => (YAMUX_ERR_IOFAIL, session_c, tr2)
        | (tr2, some _) => yamux_handle_window_update_rst session_c tr2 h
    | none => yamux_handle_window_update_rst session_b tr h
  else yamux_handle_window_update_rst session_b tr h

/-- yamux_handle_window_update of src/yamux_handlers.c (lines 130-304).
Requires length 4, reads the 4-byte payload, and processes the flag
branches in source order.  On a server receiving SYN for an unknown id the
C allocates the stream (send_window from the payload, recv_window from the
configured maximum), adds it to the table, sends SYN-ACK carrying its
recv_window, marks the object ESTABLISHED and appends it to the accept
queue; the net heap effect of those in-place mutations is recorded in one
step here.  A failed SYN-ACK write removes the stream again (net effect:
session unchanged). -/
def yamux_handle_window_update (session : yamux_session_t) (tr : yamux_io_t)
    (h : yamux_header) : yamux_result × yamux_session_t × yamux_io_t :=
  if h.length ≠ 4 then (YAMUX_ERR_PROTOCOL, session, tr)
  else
    match io_read tr 4 with
    | (tr1, payload) =>
        if payload.length ≠ 4 then (YAMUX_ERR_IOFAIL, session, tr1)
        else
          let value := be32_value payload
          if h.flags &&& YAMUX_FLAG_SYN ≠ 0 ∧ session.client = false then
            if (yamux_get_stream session h.stream_id).isSome then
              (YAMUX_ERR_PROTOCOL, session, tr1)
            else if session.go_away_received then
              (YAMUX_ERR_INTERNAL, session, tr1)
            else
              match io_write tr1 (yamux_encode_header
                  ⟨YAMUX_PROTO_VERSION, YAMUX_WINDOW_UPDATE,
                   YAMUX_FLAG_SYN ||| YAMUX_FLAG_ACK, h.stream_id, 4⟩ ++
                  be32_bytes session.max_stream_window_size) with
              | (tr2, none) => (YAMUX_ERR_IOFAIL, session, tr2)
              | (tr2, some _) =>
                  yamux_handle_window_update_rest
                    { session with
                      streams := session.streams ++
                        [⟨h.stream_id, YAMUX_STREAM_ESTABLISHED, ⟨[], 0⟩,
                          value, session.max_stream_window_size⟩],
                      accept_queue := session.accept_queue ++ [h.stream_id] }
                    tr2 h value
          else yamux_handle_window_update_rest session tr1 h value

/-- C10: on a writable stream (not CLOSED, FIN_SENT or FIN_RECV),
yamux_stream_write with length 0 returns YAMUX_OK reporting 0 bytes
written, emits nothing through the transport, and leaves the stream
(send_window included) unchanged. -/
theorem yamux_stream_write_zero_noop (stream : yamux_stream_t) (tr : yamux_io_t)
    (buf : List Nat)
    (h1 : stream.state ≠ YAMUX_STREAM_CLOSED)
    (h2 : stream.state ≠ YAMUX_STREAM_FIN_SENT)
    (h3 : stream.state ≠ YAMUX_STREAM_FIN_RECV) :
    yamux_stream_write stream tr buf 0 = (YAMUX_OK, 0, stream, tr) := by
  unfold yamux_stream_write
  rw [if_neg (by tauto), if_pos rfl]

/-- Witness for C10 at a concrete established stream. -/
theorem yamux_stream_write_zero_noop_witness :
    yamux_stream_write ⟨1, YAMUX_STREAM_ESTABLISHED, ⟨[], 0⟩, 0, 262144⟩
        ⟨[], [], false⟩ [7, 7] 0 =
      (YAMUX_OK, 0, ⟨1, YAMUX_STREAM_ESTABLISHED, ⟨[], 0⟩, 0, 262144⟩,
       ⟨[], [], false⟩) :=
  yamux_stream_write_zero_noop _ _ _ (by decide) (by decide) (by decide)

/-- C9: yamux_stream_close is idempotent at the public interface: on a
stream already CLOSED it returns YAMUX_OK (for either reset value), emits
no frame, and leaves the stream, the transport and the session unchanged. -/
theorem yamux_stream_close_closed_noop (stream : yamux_stream_t) (tr : yamux_io_t)
    (reset : Bool) (session : yamux_session_t)
    (hs : stream.state = YAMUX_STREAM_CLOSED) :
    yamux_stream_close stream tr reset session = (YAMUX_OK, stream, tr, session) := by
  unfold yamux_stream_close
  rw [if_pos hs]

/-- Witness for C9 at a concrete closed stream, both reset values. -/
theorem yamux_stream_close_closed_noop_witness :
    yamux_stream_close ⟨5, YAMUX_STREAM_CLOSED, ⟨[3], 0⟩, 9, 9⟩ ⟨[], [], false⟩
        true ⟨true, false, [], [], 256, 262144⟩ =
      (YAMUX_OK, ⟨5, YAMUX_STREAM_CLOSED, ⟨[3], 0⟩, 9, 9⟩, ⟨[], [], false⟩,
       ⟨true, false, [], [], 256, 262144⟩) :=
  yamux_stream_close_closed_noop _ _ _ _ (by decide)

/-- C8: the PING frame that yamux_session_ping emits is truncated.  On a
session that has not received GO_AWAY, with a working transport, the call
returns YAMUX_OK but hands the transport only the first 8 bytes of the
encoded 12-byte PING header (version, type, flags and stream id; the
4-byte length field is missing), because the C stores the header into
uint8_t frame[8] and writes sizeof(frame) bytes. -/
theorem yamux_session_ping_truncated_frame :
    yamux_session_ping false ⟨[], [], false⟩ =
      (YAMUX_OK, ⟨[], [[0, 2, 0, 1, 0, 0, 0, 0]], false⟩) ∧
    ([0, 2, 0, 1, 0, 0, 0, 0] : List Nat).length = 8 ∧
    yamux_encode_header ⟨YAMUX_PROTO_VERSION, YAMUX_PING, YAMUX_FLAG_SYN, 0, 0⟩ =
      [0, 2, 0, 1, 0, 0, 0, 0, 0, 0, 0, 0] ∧
    ([0, 2, 0, 1, 0, 0, 0, 0] : List Nat) ≠
      yamux_encode_header ⟨YAMUX_PROTO_VERSION, YAMUX_PING, YAMUX_FLAG_SYN, 0, 0⟩ := by
  refine ⟨by decide, by decide, by decide, by decide⟩

/-- C1: the write path does not transmit min(len, send_window) bytes.  With
send_window = 32768 and a 32768-byte write request the first 16384-byte
chunk goes out, and on the second loop iteration the in-loop window check
of src/yamux_stream.c line 434 computes send_window - total_written on the
already-decremented window, obtains 0, truncates the chunk to 0 and breaks:
the call returns YAMUX_OK with only 16384 bytes written (the payload bytes
themselves do not influence the control flow; an empty source buffer keeps
the evaluation small). -/
theorem yamux_stream_write_truncation_bug :
    yamux_stream_write ⟨1, YAMUX_STREAM_ESTABLISHED, ⟨[], 0⟩, 32768, 262144⟩
        ⟨[], [], false⟩ [] 32768 =
      (YAMUX_OK, 16384,
       ⟨1, YAMUX_STREAM_ESTABLISHED, ⟨[], 0⟩, 16384, 262144⟩,
       ⟨[], [[0, 0, 0, 0, 0, 0, 0, 1, 0, 0, 64, 0], []], false⟩) ∧
    16384 ≠ min 32768 32768 := by
  constructor
  · have hstep2 : ∀ tr : yamux_io_t,
        yamux_stream_write_loop 1 [] 32768 16384 16384 tr =
          (YAMUX_OK, 16384, 16384, tr) := by
      intro tr
      rw [yamux_stream_write_loop]
      norm_num [YAMUX_MAX_DATA_FRAME_SIZE]
    have hloop : yamux_stream_write_loop 1 [] 32768 32768 0 ⟨[], [], false⟩ =
        (YAMUX_OK, 16384, 16384,
         ⟨[], [[0, 0, 0, 0, 0, 0, 0, 1, 0, 0, 64, 0], []], false⟩) := by
      rw [yamux_stream_write_loop]
      norm_num [YAMUX_MAX_DATA_FRAME_SIZE, io_write, yamux_encode_header,
        YAMUX_PROTO_VERSION, YAMUX_DATA]
      simp only [hstep2]
      decide
    unfold yamux_stream_write
    rw [if_neg (by decide), if_neg (by decide), if_neg (by decide)]
    simp only [Nat.min_self, hloop]
  · norm_num

/-- C5: CLOSED is not absorbing in this code.  A stream that reached CLOSED
while staying in the table (here: a DATA frame with FIN received in state
FIN_SENT) is moved back to FIN_RECV by a later WINDOW_UPDATE frame carrying
a standalone FIN flag (src/yamux_handlers.c line 263 assigns FIN_RECV
without checking the current state). -/
theorem yamux_closed_state_not_absorbing :
    (let s0 : yamux_session_t :=
       ⟨true, false, [⟨1, YAMUX_STREAM_FIN_SENT, ⟨[], 0⟩, 0, 262144⟩], [],
        256, 262144⟩
     let r1 := yamux_handle_data s0 ⟨[], [], false⟩
       ⟨0, YAMUX_DATA, YAMUX_FLAG_FIN, 1, 0⟩
     let r2 := yamux_handle_window_update r1.2.1 ⟨[0, 0, 0, 0], [], false⟩
       ⟨0, YAMUX_WINDOW_UPDATE, YAMUX_FLAG_FIN, 1, 4⟩
     r1.1 = YAMUX_OK ∧
     (yamux_get_stream r1.2.1 1).map yamux_stream_t.state =
       some YAMUX_STREAM_CLOSED ∧
     r2.1 = YAMUX_OK ∧
     (yamux_get_stream r2.2.1 1).map yamux_stream_t.state =
       some YAMUX_STREAM_FIN_RECV ∧
     YAMUX_STREAM_FIN_RECV ≠ YAMUX_STREAM_CLOSED) := by
  decide

/-- C6: the accept queue is not bounded by accept_backlog and no RST is sent
on overflow.  With accept_backlog = 1 a server session that processes SYNs
for streams 1 and 3 enqueues both (queue depth 2), answering each with a
SYN-ACK; no emitted frame carries the RST flag.  The enqueue path used by
the handler (yamux_enqueue_stream_for_accept) performs no backlog check and
the handler ignores its result. -/
theorem yamux_accept_backlog_not_enforced :
    (let s0 : yamux_session_t := ⟨false, false, [], [], 1, 262144⟩
     let r1 := yamux_handle_window_update s0
       ⟨[0, 4, 0, 0, 0, 4, 0, 0], [], false⟩
       ⟨0, YAMUX_WINDOW_UPDATE, YAMUX_FLAG_SYN, 1, 4⟩
     let r2 := yamux_handle_window_update r1.2.1 r1.2.2
       ⟨0, YAMUX_WINDOW_UPDATE, YAMUX_FLAG_SYN, 3, 4⟩
     r1.1 = YAMUX_OK ∧ r2.1 = YAMUX_OK ∧
     s0.accept_backlog = 1 ∧
     r2.2.1.accept_queue = [1, 3] ∧
     r2.2.2.outflow.length = 2 ∧
     r2.2.2.outflow.all (fun frame => frame.getD 3 0 &&& YAMUX_FLAG_RST = 0)) := by
  decide

/-- C7: the accept queue is FIFO.  On a server session (empty accept queue,
no GO_AWAY, working transport) that processes a SYN for stream s1 and then
a SYN for a distinct stream s2 (each WINDOW_UPDATE carrying its 4-byte
initial-window payload), both frames are handled successfully, the queue
holds s1 before s2, and two successive accept calls return s1 then s2. -/
theorem yamux_accept_fifo (session : yamux_session_t) (s1 s2 : Nat) (tr : yamux_io_t)
    (hclient : session.client = false)
    (hga : session.go_away_received = false)
    (hw : tr.write_fails = false)
    (hq : session.accept_queue = [])
    (h1 : yamux_get_stream session s1 = none)
    (h2 : yamux_get_stream session s2 = none)
    (hne : s1 ≠ s2)
    (hin : tr.inflow = [0, 4, 0, 0, 0, 4, 0, 0]) :
    (let r1 := yamux_handle_window_update session tr
       ⟨0, YAMUX_WINDOW_UPDATE, YAMUX_FLAG_SYN, s1, 4⟩
     let r2 := yamux_handle_window_update r1.2.1 r1.2.2
       ⟨0, YAMUX_WINDOW_UPDATE, YAMUX_FLAG_SYN, s2, 4⟩
     let a1 := yamux_stream_accept r2.2.1
     let a2 := yamux_stream_accept a1.2.2
     r1.1 = YAMUX_OK ∧ r2.1 = YAMUX_OK ∧
     r2.2.1.accept_queue = [s1, s2] ∧
     a1.1 = YAMUX_OK ∧ a1.2.1 = some s1 ∧
     a2.1 = YAMUX_OK ∧ a2.2.1 = some s2) := by
  obtain ⟨client, ga, streams, queue, backlog, maxw⟩ := session
  obtain ⟨inflow, outflow, wfails⟩ := tr
  simp only at hclient hga hw hq hin h1 h2
  subst hclient hga hw hq hin
  simp only [yamux_handle_window_update, yamux_handle_window_update_rest,
    yamux_handle_window_update_rst, yamux_stream_accept, yamux_get_stream,
    yamux_set_stream, io_read, io_write, be32_value,
    YAMUX_WINDOW_UPDATE, YAMUX_FLAG_SYN, YAMUX_FLAG_ACK, YAMUX_FLAG_FIN,
    YAMUX_FLAG_RST] at h1 h2 ⊢
  simp [h1, h2, hne, List.find?_append]

/-- Witness for C7 with streams 1 and 3 arriving at a fresh server session. -/
theorem yamux_accept_fifo_witness :
    (let r1 := yamux_handle_window_update ⟨false, false, [], [], 256, 262144⟩
       ⟨[0, 4, 0, 0, 0, 4, 0, 0], [], false⟩
       ⟨0, YAMUX_WINDOW_UPDATE, YAMUX_FLAG_SYN, 1, 4⟩
     let r2 := yamux_handle_window_update r1.2.1 r1.2.2
       ⟨0, YAMUX_WINDOW_UPDATE, YAMUX_FLAG_SYN, 3, 4⟩
     let a1 := yamux_stream_accept r2.2.1
     let a2 := yamux_stream_accept a1.2.2
     r1.1 = YAMUX_OK ∧ r2.1 = YAMUX_OK ∧
     r2.2.1.accept_queue = [1, 3] ∧
     a1.1 = YAMUX_OK ∧ a1.2.1 = some 1 ∧
     a2.1 = YAMUX_OK ∧ a2.2.1 = some 3) :=
  yamux_accept_fifo ⟨false, false, [], [], 256, 262144⟩ 1 3
    ⟨[0, 4, 0, 0, 0, 4, 0, 0], [], false⟩ rfl rfl rfl rfl rfl rfl (by decide) rfl

/-- C4 (amended): a successful yamux_stream_read that returns n > 0 bytes
emits exactly one WINDOW_UPDATE frame for the stream, but its 4-byte
payload is the byte count n only when recv_window is already at
YAMUX_DEFAULT_WINDOW_SIZE; otherwise it is the deficit
YAMUX_DEFAULT_WINDOW_SIZE - recv_window, and recv_window itself is left
unchanged by the call. -/
theorem yamux_stream_read_window_update (stream : yamux_stream_t) (tr : yamux_io_t)
    (len : Nat)
    (hst : stream.state ≠ YAMUX_STREAM_CLOSED)
    (hlen : 0 < len)
    (hrw : stream.recv_window ≤ YAMUX_DEFAULT_WINDOW_SIZE)
    (hwf : tr.write_fails = false)
    (havail : stream.recvbuf.pos < stream.recvbuf.data.length) :
    (let r := yamux_stream_read stream tr len
     r.1 = YAMUX_OK ∧ 0 < r.2.1.length ∧
     r.2.2.1.recv_window = stream.recv_window ∧
     r.2.2.2.outflow = tr.outflow ++
       [yamux_encode_header ⟨0, YAMUX_WINDOW_UPDATE, 0, stream.id, 4⟩ ++
        be32_bytes (if stream.recv_window = YAMUX_DEFAULT_WINDOW_SIZE
          then r.2.1.length
          else YAMUX_DEFAULT_WINDOW_SIZE - stream.recv_window)]) := by
  have hD : YAMUX_DEFAULT_WINDOW_SIZE = 262144 := by norm_num [YAMUX_DEFAULT_WINDOW_SIZE]
  have hlentake :
      ((stream.recvbuf.data.drop stream.recvbuf.pos).take
        (min len (stream.recvbuf.data.length - stream.recvbuf.pos))).length =
      min len (stream.recvbuf.data.length - stream.recvbuf.pos) := by
    simp [List.length_take, List.length_drop]
  have hwi0 : (2 ^ 32 + YAMUX_DEFAULT_WINDOW_SIZE - stream.recv_window) % 2 ^ 32 =
      YAMUX_DEFAULT_WINDOW_SIZE - stream.recv_window := by
    rw [hD] at hrw ⊢
    omega
  simp only [yamux_stream_read, yamux_buffer_read]
  rw [if_neg (by omega), if_neg hst, if_neg (by omega)]
  simp only [hlentake, hwi0]
  refine ⟨trivial, by omega, trivial, ?_⟩
  rw [if_pos (show 0 < len ⊓ (stream.recvbuf.data.length - stream.recvbuf.pos) by omega)]
  simp only [io_write, hwf, Bool.false_eq_true, if_false, YAMUX_PROTO_VERSION]
  congr 1
  congr 1
  congr 1
  congr 1
  rw [hD] at hrw ⊢
  split_ifs <;> omega

/-- Witness for C4 at a concrete stream with a full receive window. -/
theorem yamux_stream_read_window_update_witness :
    (let r := yamux_stream_read ⟨1, YAMUX_STREAM_ESTABLISHED, ⟨[7, 7, 7], 0⟩, 0, 262144⟩
       ⟨[], [], false⟩ 2
     r.1 = YAMUX_OK ∧ 0 < r.2.1.length ∧
     r.2.2.1.recv_window =
       (⟨1, YAMUX_STREAM_ESTABLISHED, ⟨[7, 7, 7], 0⟩, 0, 262144⟩ : yamux_stream_t).recv_window ∧
     r.2.2.2.outflow = ([] : List (List Nat)) ++
       [yamux_encode_header ⟨0, YAMUX_WINDOW_UPDATE, 0, 1, 4⟩ ++
        be32_bytes (if (⟨1, YAMUX_STREAM_ESTABLISHED, ⟨[7, 7, 7], 0⟩, 0, 262144⟩ :
            yamux_stream_t).recv_window = YAMUX_DEFAULT_WINDOW_SIZE
          then r.2.1.length
          else YAMUX_DEFAULT_WINDOW_SIZE -
            (⟨1, YAMUX_STREAM_ESTABLISHED, ⟨[7, 7, 7], 0⟩, 0, 262144⟩ :
              yamux_stream_t).recv_window)]) :=
  yamux_stream_read_window_update ⟨1, YAMUX_STREAM_ESTABLISHED, ⟨[7, 7, 7], 0⟩, 0, 262144⟩
    ⟨[], [], false⟩ 2 (by decide) (by decide) (by norm_num [YAMUX_DEFAULT_WINDOW_SIZE])
    (by decide) (by decide)

/-- C4 counterexample: the WINDOW_UPDATE payload is not the byte count just
read.  A stream whose recv_window is 100 below the default (100 buffered
bytes) read with max = 50 delivers n = 50 bytes but emits an update whose
payload is 100, not 50. -/
theorem yamux_stream_read_update_payload_not_n :
    (let r := yamux_stream_read
       ⟨1, YAMUX_STREAM_ESTABLISHED, ⟨List.replicate 100 7, 0⟩, 0, 262044⟩
       ⟨[], [], false⟩ 50
     r.1 = YAMUX_OK ∧ r.2.1.length = 50 ∧
     r.2.2.2.outflow =
       [yamux_encode_header ⟨0, YAMUX_WINDOW_UPDATE, 0, 1, 4⟩ ++ be32_bytes 100] ∧
     be32_bytes 100 ≠ be32_bytes 50) := by
  decide
